import Mathlib

/-!
Verification development for the medical-records web frontend
(Next.js client layer: session middleware, chat server action,
chat payload dispatcher, auth form actions).

Shallow embedding conventions:
* JavaScript `undefined`/absent fields become `Option`.
* JS truthiness of a string value (`if (s)`) is `s ≠ ""` on a present value.
* External builtins (`jwtVerify` of the jose library, `JSON.parse`,
  `JSON.stringify` of a detail object, the zod email regex) are modelled as
  explicit function parameters or oracle inputs; everything the repository
  itself computes is embedded directly from its source.
* A JS function that cannot throw (all exits are `return`) is embedded as a
  total Lean function; possible exceptions of callees appear as explicit
  outcome constructors fed to it.
-/

namespace MedApp

/-! ## Session verification (`src/frontend/src/lib/session`, `decrypt`) -/

/-- The JWT payload returned by `jwtVerify` (`{ sub, role, exp }`).
A field the token lacks is `none`. -/
structure SessionPayload where
  sub : Option String
  role : Option String
  exp : Option Nat
deriving Repr, DecidableEq

/-- An error thrown by `jwtVerify` (signature mismatch, expiry,
malformed token, ...).  Its precise shape is irrelevant: the catch block
discards it. -/
structure JwtError where
  name : String
  message : String
deriving Repr, DecidableEq

/-- Model of `decrypt(token = "")` from the session library: if `SESSION_SECRET` is
absent return `null`; otherwise run `jwtVerify(token, key)` and return its
payload, returning `null` on any verification error.  `verify` models the
external `jwtVerify` builtin applied to (secret, token); an absent cookie
reaches `decrypt` as `undefined` and is defaulted to `""`. -/
def decrypt (secret : Option String)
    (verify : String → String → Except JwtError SessionPayload)
    (token : Option String) : Option SessionPayload :=
  match secret with
  | none => none
  | some s =>
    match verify s (token.getD "") with
    | .error _ => none
    | .ok payload => some payload

/-! ## Middleware (`middleware.js`) -/

/-- The list `const protectedRoutes = ["/c"]`. -/
def protectedRoutes : List String := ["/c"]

/-- The list `const publicRoutes = ["/auth/login", "/auth/register"]`. -/
def publicRoutes : List String := ["/auth/login", "/auth/register"]

/-- The middleware's result: a redirect response, or `NextResponse.next`
carrying the forwarded request headers' `x-user-id` value (if set). -/
inductive MwResponse where
  | redirect (target : String)
  | next (xUserId : Option String)
deriving Repr, DecidableEq

/-- JS truthiness of `session?.sub`: the session is present, has a `sub`
field, and that string is non-empty. -/
def subTruthy (session : Option SessionPayload) : Bool :=
  match session with
  | none => false
  | some p =>
    match p.sub with
    | none => false
    | some v => v ≠ ""

/-- The body of `middleware(req)` after `decrypt` has produced `session`:
exact-membership tests against the two route lists, the two redirect
branches, then `NextResponse.next` with `x-user-id` attached when
`session?.sub` is truthy. -/
def middlewareCore (path : String) (session : Option SessionPayload) :
    MwResponse :=
  let isProtectedRoute := protectedRoutes.contains path
  let isPublicRoute := publicRoutes.contains path
  if isProtectedRoute && !(subTruthy session) then
    .redirect "/login"
  else if isPublicRoute && subTruthy session then
    .redirect "/c"
  else
    .next (if subTruthy session then (session.bind SessionPayload.sub) else none)

/-- The function `middleware(req)` end to end: read the `session` cookie (absent =
`none`), `decrypt` it, then dispatch. -/
def middleware (secret : Option String)
    (verify : String → String → Except JwtError SessionPayload)
    (path : String) (sessionCookie : Option String) : MwResponse :=
  middlewareCore path (decrypt secret verify sessionCookie)

end MedApp

namespace MedApp

/-- A concrete `jwtVerify` model that rejects every token, used to
instantiate counterexamples and witnesses. -/
def rejectAll : String → String → Except JwtError SessionPayload :=
  fun _ _ => .error ⟨"JWSSignatureVerificationFailed", "signature verification failed"⟩

/-- A concrete `jwtVerify` model that accepts every token as user 42,
used to instantiate witnesses. -/
def acceptAs42 : String → String → Except JwtError SessionPayload :=
  fun _ _ => .ok ⟨some "42", some "patient", some 1900000000⟩

end MedApp

namespace MedApp

/-! ## Chat server action (`src/frontend/src/app/c/actions.js`, `sendChat`) -/

/-- A JavaScript exception as observed by a `catch` block: its `name` and
`message` properties (stringified). -/
structure JsError where
  name : String
  message : String
deriving Repr, DecidableEq

/-- The `detail` field of a parsed error body.  `obj` models
`typeof detail === 'object' && detail !== null` with its optional `message`
property, its `errors` property when present and an array (each entry being
that element's `.message`), and `stringified` the external
`JSON.stringify(errorData.detail)` output for that object. -/
inductive Detail where
  | str (s : String)
  | obj (message : Option String) (errors : Option (List String))
      (stringified : String)
deriving Repr, DecidableEq

/-- A parsed JSON response body.  One dynamic object serves both the error
path (`detail`, `message`) and the success path (`reply`, `agent`,
`interrupt_id`, `thinking_time`); absent properties are `none`. -/
structure BodyJson where
  detail : Option Detail
  message : Option String
  reply : Option String
  agent : Option String
  interrupt_id : Option String
  thinking_time : Option Nat
deriving Repr, DecidableEq

/-- What the awaited `fetch` did: delivered a response whose `res.json()`
parses to a body (or throws a parse error), or threw before a response
existed (network failure etc.). -/
inductive FetchOutcome where
  | response (status : Nat) (json : Except JsError BodyJson)
  | threw (e : JsError)
deriving Repr

/-- The typed error object `sendChat` returns: `{type, status, message}`.
`message` is `none` when the JS value would be `undefined`. -/
structure ChatError where
  type : String
  status : Nat
  message : Option String
deriving Repr, DecidableEq

/-- Result value of `sendChat`: `{success: true, data}` or
`{success: false, error}`. -/
inductive ChatResult where
  | ok (data : BodyJson)
  | fail (e : ChatError)
deriving Repr, DecidableEq

/-- Observable side effects of one `sendChat` call: whether the HTTP
request was issued, and which cookies were deleted. -/
structure ChatEffects where
  fetched : Bool
  deletedSession : Bool
  deletedRefresh : Bool
deriving Repr, DecidableEq

/-- The chat request payload `{message, user_tz?, interrupt_id?,
resume_value?}`. -/
structure ChatPayload where
  message : String
  user_tz : Option String
  interrupt_id : Option String
  resume_value : Option String
deriving Repr, DecidableEq

/-- JS `v || dflt` on an optional string (absent and `""` are falsy). -/
def jsOrStr (v : Option String) (dflt : String) : String :=
  match v with
  | some s => if s ≠ "" then s else dflt
  | none => dflt

/-- The JSON body `sendChat` sends:
`{...payload, user_tz: payload.user_tz || Intl...timeZone}`. -/
def chatRequestBody (p : ChatPayload) (browserTz : String) : ChatPayload :=
  { p with user_tz := some (jsOrStr p.user_tz browserTz) }

/-- Test `res.ok`: status in the 200–299 range. -/
def resOk (status : Nat) : Bool := 200 ≤ status && status < 300

/-- Char-list prefix test (plain structural recursion so that concrete
instances evaluate). -/
def listPrefixOf : List Char → List Char → Bool
  | [], _ => true
  | _ :: _, [] => false
  | c :: cs, d :: ds => c = d && listPrefixOf cs ds

/-- Char-list infix test. -/
def listInfixOf (needle : List Char) : List Char → Bool
  | [] => listPrefixOf needle []
  | d :: ds => listPrefixOf needle (d :: ds) || listInfixOf needle ds

/-- Whether `error.message.includes("fetch")` holds. -/
def mentionsFetch (s : String) : Bool :=
  listInfixOf "fetch".toList s.toList

/-- The inner `try { errorData = await res.json(); ... } catch { ... }`
of the `!res.ok` path: compute `errorDetails.message`. -/
def computeErrMessage (status : Nat) (json : Except JsError BodyJson) :
    Option String :=
  match json with
  | .error _ => some ("Request failed with status " ++ toString status)
  | .ok ed =>
    match ed.detail with
    | some (.obj msg errs stringified) =>
      match msg with
      | some m =>
        if m ≠ "" then
          match errs with
          | some es => some (m ++ " (" ++ String.intercalate ", " es ++ ")")
          | none => some m
        else some stringified
      | none => some stringified
    | some (.str s) => if s ≠ "" then some s else ed.message
    | none => ed.message

/-- The outer `catch (error)` block: a fetch-level `TypeError` becomes
`NETWORK_ERROR`/503, anything else `UNKNOWN_ERROR`/500. -/
def catchBranch (e : JsError) : ChatError :=
  if e.name = "TypeError" && mentionsFetch e.message then
    ⟨"NETWORK_ERROR", 503, some "Unable to connect to server"⟩
  else
    ⟨"UNKNOWN_ERROR", 500, some (jsOrStr (some e.message) "An unexpected error occurred")⟩

/-- The `switch (res.status)` of the `!res.ok` path.  Returns the error
object and whether the 401 branch's cookie deletions ran. -/
def httpErrorBranch (status : Nat) (json : Except JsError BodyJson) :
    ChatError × Bool :=
  let msg := computeErrMessage status json
  if status = 401 then
    (⟨"AUTHENTICATION_FAILED", 401, some "Session expired. Please log in again."⟩, true)
  else if status = 403 then
    (⟨"FORBIDDEN", 403, some (jsOrStr msg "Access denied. Insufficient permissions.")⟩, false)
  else if status = 422 then
    (⟨"VALIDATION_ERROR", 422, some (jsOrStr msg "Invalid request data.")⟩, false)
  else if status = 500 then
    (⟨"SERVER_ERROR", 500, some (jsOrStr msg "Server error occurred.")⟩, false)
  else
    (⟨"HTTP_ERROR", status, msg⟩, false)

/-- The action `sendChat(payload)`: read the `session` cookie; short-circuit with a
401 error when it is absent; otherwise POST `chatRequestBody` and map the
outcome.  The result pairs the returned value with the call's side
effects. -/
def sendChat (sessionCookie : Option String) (_payload : ChatPayload)
    (_browserTz : String) (outcome : FetchOutcome) :
    ChatResult × ChatEffects :=
  match sessionCookie with
  | none =>
    (.fail ⟨"AUTHENTICATION_FAILED", 401, some "Not authenticated - session token missing"⟩,
     ⟨false, false, false⟩)
  | some _ =>
    match outcome with
    | .threw e => (.fail (catchBranch e), ⟨true, false, false⟩)
    | .response status json =>
      if resOk status then
        match json with
        | .ok body => (.ok body, ⟨true, false, false⟩)
        | .error e => (.fail (catchBranch e), ⟨true, false, false⟩)
      else
        (.fail (httpErrorBranch status json).1,
         ⟨true, (httpErrorBranch status json).2, (httpErrorBranch status json).2⟩)

/-! ## Chat submit handler (`Chat.jsx`, `handleSubmit`) -/

/-- In `Chat.handleSubmit`, on an unsuccessful result a redirect to
`/login` is scheduled (via `setTimeout`) iff the error type is
`AUTHENTICATION_FAILED`. -/
def redirectScheduled (r : ChatResult) : Bool :=
  match r with
  | .ok _ => false
  | .fail e => e.type = "AUTHENTICATION_FAILED"

end MedApp

namespace MedApp

/-! ## Chat payload dispatcher (`SpecialBubble.jsx`)

The repository file holds two revisions of `SpecialBubble`.  The first
(current) revision dispatches on `error` / `booking_proposal` / `slots` /
`doctors` / `appointment_confirmed` / `booking_conflict` / `booking_error`
/ legacy-confirmed / `no_doctors`; the second (related, appended) revision
handles `confirm_booking` with direct `sendChat` calls carrying the
message's `interrupt_id`.  Both are embedded. -/

/-- A JS primitive appearing in the dynamic `status` field: a number
(error payloads) or a string (legacy `"confirmed"`). -/
inductive JsPrim where
  | num (n : Nat)
  | str (s : String)
deriving Repr, DecidableEq

/-- One entry of a `doctors` payload's array. -/
structure DoctorInfo where
  id : Nat
  name : String
  specialty : String
deriving Repr, DecidableEq

/-- The parsed content of an assistant message, as `JSON.parse` delivers
it: a dynamic object whose absent properties are `none`.  `options` and
`doctors` are `none` also when present but not an array (the code tests
`Array.isArray`). -/
structure Payload where
  type : Option String
  status : Option JsPrim
  message : Option String
  retryMessage : Option String
  doctor : Option String
  doctor_name : Option String
  starts_at : Option String
  proposed_starts_at_display : Option String
  specialty : Option String
  options : Option (List String)
  reply_template : Option String
  doctors : Option (List DoctorInfo)
  agent : Option String
  appointment_id : Option Nat
  id : Option Nat
  start_dt : Option String
  location : Option String
deriving Repr, DecidableEq

/-- Truthiness of an optional string property. -/
def truthyOptStr (v : Option String) : Bool :=
  match v with
  | some s => s ≠ ""
  | none => false

/-- Truthiness of an optional numeric property (`0` is falsy). -/
def truthyOptNat (v : Option Nat) : Bool :=
  match v with
  | some n => n ≠ 0
  | none => false

/-- Truthiness of the dynamic `status` property. -/
def truthyPrim (v : Option JsPrim) : Bool :=
  match v with
  | some (.num n) => n ≠ 0
  | some (.str s) => s ≠ ""
  | none => false

/-- JS string concatenation `payload.reply_template + opt` where the left
operand may be `undefined` (which stringifies to `"undefined"`). -/
def jsConcatUndef (v : Option String) (s : String) : String :=
  (v.getD "undefined") ++ s

/-- A chat message of the in-memory list
`{role, content, agent?, interrupt_id?}`. -/
structure ChatMessage where
  role : String
  content : String
  agent : Option String
  interrupt_id : Option String
deriving Repr, DecidableEq

/-- What a widget button click does: set the chat input and submit the
`chat-form`, call `sendChat` directly with a payload, or nothing. -/
inductive WidgetAction where
  | submitInput (text : String)
  | chatRequest (p : ChatPayload)
  | nothing
deriving Repr, DecidableEq

/-- The widget the current `SpecialBubble` revision renders for a message
— exactly one constructor per render path. -/
inductive Rendered where
  | disabledCard
  | serverErrorCard (message retryMessage : Option String)
  | errorCard (status : JsPrim) (message retryMessage : Option String)
  | bookingProposalCard (doctorName startsAtDisplay : Option String)
  | slotsCard (agent doctor specialty : Option String) (buttons : List String)
  | doctorsCard (agent message : Option String) (buttons : List DoctorInfo)
  | appointmentConfirmedCard (agent doctorName startDt location : Option String)
      (appointmentId : Nat)
  | bookingConflictCard (agent message : Option String)
  | bookingErrorCard (agent message : Option String)
  | legacyConfirmedCard (doctorName startDt : Option String)
  | noDoctorsCard (message : Option String)
  | plainBubble
deriving Repr, DecidableEq

/-- The current revision's render dispatch: `JSON.parse` result (or
`null`), the `isDisabled` state, and the ordered `if` chain of the
component body. -/
def dispatch (isDisabled : Bool) (payloadOpt : Option Payload) : Rendered :=
  if isDisabled then .disabledCard
  else
    match payloadOpt with
    | none => .plainBubble
    | some p =>
      if p.type = some "error" && p.status = some (.num 500) then
        .serverErrorCard p.message p.retryMessage
      else if p.type = some "error" && truthyPrim p.status then
        .errorCard (p.status.getD (.num 0)) p.message p.retryMessage
      else if p.type = some "booking_proposal" then
        .bookingProposalCard p.doctor_name p.proposed_starts_at_display
      else if p.type = some "slots" && p.options.isSome then
        .slotsCard p.agent p.doctor p.specialty (p.options.getD [])
      else if p.type = some "doctors" && p.doctors.isSome then
        .doctorsCard p.agent p.message (p.doctors.getD [])
      else if p.type = some "appointment_confirmed" && truthyOptNat p.appointment_id then
        .appointmentConfirmedCard p.agent p.doctor_name p.start_dt p.location
          (p.appointment_id.getD 0)
      else if p.type = some "booking_conflict" then
        .bookingConflictCard p.agent p.message
      else if p.type = some "booking_error" then
        .bookingErrorCard p.agent p.message
      else if p.status = some (.str "confirmed") && truthyOptNat p.id then
        .legacyConfirmedCard p.doctor_name p.start_dt
      else if p.type = some "no_doctors" then
        .noDoctorsCard p.message
      else
        .plainBubble

/-- The slot button click of the `slots` widget (both revisions):
`flushSync(() => setInput(payload.reply_template + opt))` followed by
`requestSubmit` of the chat form. -/
def slotsClick (p : Payload) (opt : String) : WidgetAction :=
  .submitInput (jsConcatUndef p.reply_template opt)

end MedApp

namespace MedApp

/-! ## Second `SpecialBubble` revision: `confirm_booking` widget -/

/-- The widget the second (related) `SpecialBubble` revision renders.
`confirmBookingCard` carries the two `sendChat` payloads its buttons
issue. -/
inductive Rendered2 where
  | processingCard
  | confirmBookingCard (doctor startsAt : String) (bookReq cancelReq : ChatPayload)
  | slotsCard2 (agent doctor : Option String) (buttons : List String)
  | doctorsCard2 (agent message : Option String) (buttons : List DoctorInfo)
  | legacyConfirmedCard2 (doctorName startDt : Option String)
  | plainBubble2
deriving Repr, DecidableEq

/-- The `sendChat` payload the `confirm_booking` widget issues for the
Book-It (confirm) or Cancel button: the fixed message text, the message's
`interrupt_id` passed through as-is, and `resume_value` `"yes"`/`"no"`. -/
def confirmBookingRequest (msg : ChatMessage) (confirm : Bool) : ChatPayload :=
  { message :=
      if confirm then "Yes, please book this appointment."
      else "No, I don't want to book this appointment.",
    user_tz := none,
    interrupt_id := msg.interrupt_id,
    resume_value := some (if confirm then "yes" else "no") }

/-- The second revision's render dispatch (`confirm_booking` guarded by
truthy `doctor` and `starts_at`, then `slots`, `doctors`, legacy
confirmed, fallback). -/
def dispatch2 (isDisabled : Bool) (msg : ChatMessage)
    (payloadOpt : Option Payload) : Rendered2 :=
  if isDisabled then .processingCard
  else
    match payloadOpt with
    | none => .plainBubble2
    | some p =>
      if p.type = some "confirm_booking" && truthyOptStr p.doctor
          && truthyOptStr p.starts_at then
        .confirmBookingCard (p.doctor.getD "") (p.starts_at.getD "")
          (confirmBookingRequest msg true) (confirmBookingRequest msg false)
      else if p.type = some "slots" && p.options.isSome then
        .slotsCard2 p.agent p.doctor (p.options.getD [])
      else if p.type = some "doctors" && p.doctors.isSome then
        .doctorsCard2 p.agent p.message (p.doctors.getD [])
      else if p.status = some (.str "confirmed") && truthyOptNat p.id then
        .legacyConfirmedCard2 p.doctor_name p.start_dt
      else
        .plainBubble2

end MedApp

namespace MedApp

/-! ## Login action (`src/frontend/src/app/auth/login/actions.js`) -/

/-- The outcome of the `login` server action: field errors from the
schema, an error object from a non-2xx response, or the `redirect("/c")`
navigation (which in Next.js ends the action). -/
inductive LoginOutcome where
  | fieldErrors (errs : List (String × List String))
  | apiError (errs : String) (status : Nat)
  | redirected (target : String)
deriving Repr, DecidableEq

/-- The parse result of `loginSchema.safeParse`: flattened field errors,
or the validated `{email, password}` data. -/
inductive LoginParse where
  | failure (errs : List (String × List String))
  | success (email password : String)
deriving Repr, DecidableEq

/-- A backend response to `POST /auth/login` as the action reads it:
status plus the optional `detail` string of its JSON body (a body that
fails to parse is the empty object `{}`, i.e. `detail` absent). -/
structure LoginResponse where
  status : Nat
  detail : Option String
deriving Repr, DecidableEq

/-- The `login(formData)` action after `safeParse`: schema failure
returns `{errors}` without fetching; otherwise the response drives a 500
branch, a generic error branch (`body.detail || "Invalid credentials"`),
or `redirect("/c")`.  The boolean records whether the HTTP call was
made. -/
def login (parse : LoginParse) (response : LoginResponse) :
    LoginOutcome × Bool :=
  match parse with
  | .failure errs => (.fieldErrors errs, false)
  | .success _ _ =>
    if resOk response.status then
      (.redirected "/c", true)
    else if response.status = 500 then
      (.apiError "Server error occurred. Please try again later." 500, true)
    else
      (.apiError (jsOrStr response.detail "Invalid credentials") response.status, true)

/-! ## Register action (`src/frontend/src/app/auth/register/actions.js`) -/

/-- A calendar date as the zod-coerced `Date` holds it, restricted to
years whose `toISOString()` uses the four-digit form. -/
structure RegDate where
  year : Nat
  month : Nat
  day : Nat
deriving Repr, DecidableEq

/-- Left-pad a numeral with zeros to the given width. -/
def padNum (width n : Nat) : String :=
  let s := toString n
  String.mk (List.replicate (width - s.length) '0') ++ s

/-- Serialization `dob.toISOString().slice(0, 10)`: the `YYYY-MM-DD` prefix of the ISO
timestamp (faithful for years 0–9999). -/
def isoDateSlice10 (d : RegDate) : String :=
  padNum 4 d.year ++ "-" ++ padNum 2 d.month ++ "-" ++ padNum 2 d.day

/-- The validated output of `registerSchema.safeParse` (after `.strict()`
and the password/repeat refinement): every field the schema declares.
`role` is `none` when the optional key was absent. -/
structure RegisterData where
  email : String
  password : String
  first_name : String
  last_name : String
  sex : String
  phone : String
  address : String
  dob : RegDate
  role : Option String
  repeat_password : String
deriving Repr, DecidableEq

/-- The nested `patient_profile` object of the register payload. -/
structure PatientProfile where
  sex : String
  first_name : String
  last_name : String
  dob : String
  phone : String
  address : String
deriving Repr, DecidableEq

/-- The JSON body of `POST /auth/register`: the destructured `...rest`
(email, password, optional role) at top level plus the nested
`patient_profile`. -/
structure RegisterPayload where
  email : String
  password : String
  role : Option String
  patient_profile : PatientProfile
deriving Repr, DecidableEq

/-- The top-level JSON keys of a register payload, in object order: the
`...rest` keys (`role` only when the optional field was present), then
`patient_profile`. -/
def registerPayloadKeys (p : RegisterPayload) : List String :=
  ["email", "password"]
    ++ (match p.role with | some _ => ["role"] | none => [])
    ++ ["patient_profile"]

/-- Step 2 of `register(formData)`: destructure the validated data
(discarding `repeat_password`) and build the API payload with the
profile fields nested under `patient_profile` and `dob` serialized via
`toISOString().slice(0, 10)`. -/
def buildRegisterPayload (d : RegisterData) : RegisterPayload :=
  { email := d.email,
    password := d.password,
    role := d.role,
    patient_profile :=
      { sex := d.sex,
        first_name := d.first_name,
        last_name := d.last_name,
        dob := isoDateSlice10 d.dob,
        phone := d.phone,
        address := d.address } }

end MedApp

namespace MedApp

/-! ## Concrete sample values used by counterexamples and witnesses -/

/-- A minimal chat payload. -/
def samplePayload : ChatPayload := ⟨"hello", none, none, none⟩

/-- A parsed response body with every property absent (`{}`). -/
def emptyBody : BodyJson := ⟨none, none, none, none, none, none⟩

end MedApp

namespace MedApp

/-- C1: the middleware gates the protected set by exact path membership,
not by prefix.  The path `"/c/settings"` falls under the protected prefix
`"/c"`, yet with an absent session cookie the middleware does not
redirect to login — it passes the request through. -/
theorem C1_counterexample :
    "/c/settings" = "/c" ++ "/settings" ∧
    middleware (some "secret") rejectAll "/c/settings" none ≠
      MwResponse.redirect "/login" ∧
    middleware (some "secret") rejectAll "/c/settings" none =
      MwResponse.next none := by
  refine ⟨rfl, ?_, ?_⟩ <;> decide

/-- C1 (amended): for every request whose path is exactly a member of the
protected route list, an absent or invalid session cookie (one `decrypt`
rejects) yields a redirect to `"/login"`; and for every request whose
path is a member of the public auth route list carrying a session that
decrypts to a payload with a non-empty `sub`, the middleware redirects to
`"/c"`. -/
theorem C1_theorem (secret : Option String)
    (verify : String → String → Except JwtError SessionPayload)
    (path : String) (cookie : Option String) :
    (protectedRoutes.contains path = true →
      decrypt secret verify cookie = none →
      middleware secret verify path cookie = .redirect "/login") ∧
    (publicRoutes.contains path = true →
      subTruthy (decrypt secret verify cookie) = true →
      middleware secret verify path cookie = .redirect "/c") := by
  constructor
  · intro hprot hdec
    have hmem : path ∈ protectedRoutes := by simpa using hprot
    simp [middleware, middlewareCore, hdec, subTruthy, hmem]
  · intro hpub hsub
    have hmem : path ∈ publicRoutes := by simpa using hpub
    simp [middleware, middlewareCore, hsub, hmem]

/-- C1 witness: the concrete protected path `"/c"` with no cookie is
redirected to login, and the concrete public path `"/auth/login"` with a
verifiable session is redirected to the chat page. -/
theorem C1_witness :
    middleware (some "secret") rejectAll "/c" none =
      MwResponse.redirect "/login" ∧
    middleware (some "secret") acceptAs42 "/auth/login" (some "token") =
      MwResponse.redirect "/c" :=
  ⟨(C1_theorem (some "secret") rejectAll "/c" none).1 (by decide) (by decide),
   (C1_theorem (some "secret") acceptAs42 "/auth/login" (some "token")).2
     (by decide) (by decide)⟩

/-- C8: whenever the signing secret is unavailable or `jwtVerify` rejects
the token (malformed, expired, wrongly signed, empty, or absent — an
absent cookie is verified as `""`), `decrypt` returns `null` instead of
propagating the error, and the middleware behaves exactly as for an
anonymous caller (no session).  `decrypt` and `middleware` are total
functions into non-exceptional types: no verification error can reach the
middleware's caller. -/
theorem C8_theorem (secret : Option String)
    (verify : String → String → Except JwtError SessionPayload)
    (token : Option String) (path : String)
    (h : secret = none ∨
      ∃ s e, secret = some s ∧ verify s (token.getD "") = .error e) :
    decrypt secret verify token = none ∧
    middleware secret verify path token = middlewareCore path none := by
  have hdec : decrypt secret verify token = none := by
    rcases h with h | ⟨s, e, hs, hv⟩
    · simp [decrypt, h]
    · simp [decrypt, hs, hv]
  exact ⟨hdec, by simp [middleware, hdec]⟩

/-- C8 witness: a concrete garbage token under a rejecting verifier
decrypts to `null`, and the middleware on the protected chat path treats
it as anonymous. -/
theorem C8_witness :
    decrypt (some "secret") rejectAll (some "not.a.jwt") = none ∧
    middleware (some "secret") rejectAll "/c" (some "not.a.jwt") =
      middlewareCore "/c" none :=
  C8_theorem (some "secret") rejectAll (some "not.a.jwt") "/c"
    (Or.inr ⟨"secret",
      ⟨"JWSSignatureVerificationFailed", "signature verification failed"⟩,
      rfl, rfl⟩)

/-- C10: with no `session` cookie, `sendChat` short-circuits for every
payload and every would-be backend outcome: it returns the
`AUTHENTICATION_FAILED`/401 error, issues no HTTP request, and deletes no
cookie. -/
theorem C10_theorem (p : ChatPayload) (tz : String) (outcome : FetchOutcome) :
    sendChat none p tz outcome =
      (.fail ⟨"AUTHENTICATION_FAILED", 401,
          some "Not authenticated - session token missing"⟩,
       ⟨false, false, false⟩) := rfl

end MedApp

namespace MedApp

/-! ## Helper lemmas about `sendChat`'s branches -/

/-- Unfolding of `sendChat` with a session cookie on a thrown exception. -/
theorem sendChat_some_threw (s : String) (p : ChatPayload) (tz : String)
    (err : JsError) :
    sendChat (some s) p tz (.threw err) =
      (.fail (catchBranch err), ⟨true, false, false⟩) := rfl

/-- Unfolding of `sendChat` with a session cookie on a delivered response. -/
theorem sendChat_some_response (s : String) (p : ChatPayload) (tz : String)
    (st : Nat) (json : Except JsError BodyJson) :
    sendChat (some s) p tz (.response st json) =
      if resOk st = true then
        match json with
        | .ok body => (.ok body, ⟨true, false, false⟩)
        | .error e => (.fail (catchBranch e), ⟨true, false, false⟩)
      else
        (.fail (httpErrorBranch st json).1,
         ⟨true, (httpErrorBranch st json).2, (httpErrorBranch st json).2⟩) := by
  rcases json with e | body <;> by_cases h : resOk st = true <;>
    simp [sendChat, h]

/-- The outer catch produces only `NETWORK_ERROR` or `UNKNOWN_ERROR`. -/
theorem catchBranch_type (err : JsError) :
    (catchBranch err).type = "NETWORK_ERROR" ∨
    (catchBranch err).type = "UNKNOWN_ERROR" := by
  unfold catchBranch
  split <;> simp

/-- The HTTP-error switch produces only the four status-specific types or
`HTTP_ERROR`. -/
theorem httpErrorBranch_type (st : Nat) (json : Except JsError BodyJson) :
    (httpErrorBranch st json).1.type ∈
      ["AUTHENTICATION_FAILED", "FORBIDDEN", "VALIDATION_ERROR",
       "SERVER_ERROR", "HTTP_ERROR"] := by
  unfold httpErrorBranch
  split_ifs <;> simp

/-- The HTTP-error switch deletes cookies exactly on status 401. -/
theorem httpErrorBranch_deleted (st : Nat) (json : Except JsError BodyJson) :
    (httpErrorBranch st json).2 = (st = 401 : Bool) := by
  unfold httpErrorBranch
  split_ifs <;> simp_all

/-- The HTTP-error switch yields `AUTHENTICATION_FAILED` exactly on
status 401. -/
theorem httpErrorBranch_auth_iff (st : Nat) (json : Except JsError BodyJson) :
    (httpErrorBranch st json).1.type = "AUTHENTICATION_FAILED" ↔ st = 401 := by
  unfold httpErrorBranch
  split_ifs <;> simp_all

end MedApp

namespace MedApp

/-- The error-type vocabulary the spec lists for `sendChat`. -/
def specErrorTypes : List String :=
  ["AUTHENTICATION_FAILED", "FORBIDDEN", "VALIDATION_ERROR",
   "SERVER_ERROR", "NETWORK_ERROR", "UNKNOWN_ERROR"]

/-- C2: the claim's closed taxonomy is incomplete.  A 404 response (any
non-2xx status other than 401/403/422/500) makes `sendChat` return the
error type `"HTTP_ERROR"`, which is outside the claimed six-element
set. -/
theorem C2_counterexample :
    (sendChat (some "token") samplePayload "UTC"
        (.response 404 (.ok emptyBody))).fst =
      ChatResult.fail ⟨"HTTP_ERROR", 404, none⟩ ∧
    "HTTP_ERROR" ∉ specErrorTypes := by
  constructor
  · rfl
  · decide

/-- C2 (amended): every error type `sendChat` produces is drawn from the
closed seven-element taxonomy `specErrorTypes ++ ["HTTP_ERROR"]`, with
401 mapped to `AUTHENTICATION_FAILED`, 403 to `FORBIDDEN`, 422 to
`VALIDATION_ERROR`, 500 to `SERVER_ERROR`, fetch-level failures to
`NETWORK_ERROR`, and every other non-2xx status to `HTTP_ERROR`. -/
theorem C2_theorem (p : ChatPayload) (tz : String) :
    (∀ (cookie : Option String) (outcome : FetchOutcome) (e : ChatError),
        (sendChat cookie p tz outcome).fst = .fail e →
        e.type ∈ specErrorTypes ++ ["HTTP_ERROR"]) ∧
    (∀ (s : String) (json : Except JsError BodyJson),
        (sendChat (some s) p tz (.response 401 json)).fst =
          .fail ⟨"AUTHENTICATION_FAILED", 401,
            some "Session expired. Please log in again."⟩) ∧
    (∀ (s : String) (json : Except JsError BodyJson), ∃ m,
        (sendChat (some s) p tz (.response 403 json)).fst =
          .fail ⟨"FORBIDDEN", 403, some m⟩) ∧
    (∀ (s : String) (json : Except JsError BodyJson), ∃ m,
        (sendChat (some s) p tz (.response 422 json)).fst =
          .fail ⟨"VALIDATION_ERROR", 422, some m⟩) ∧
    (∀ (s : String) (json : Except JsError BodyJson), ∃ m,
        (sendChat (some s) p tz (.response 500 json)).fst =
          .fail ⟨"SERVER_ERROR", 500, some m⟩) ∧
    (∀ (s : String) (err : JsError),
        err.name = "TypeError" → mentionsFetch err.message = true →
        (sendChat (some s) p tz (.threw err)).fst =
          .fail ⟨"NETWORK_ERROR", 503, some "Unable to connect to server"⟩) ∧
    (∀ (s : String) (st : Nat) (json : Except JsError BodyJson),
        resOk st = false → st ≠ 401 → st ≠ 403 → st ≠ 422 → st ≠ 500 →
        (sendChat (some s) p tz (.response st json)).fst =
          .fail ⟨"HTTP_ERROR", st, computeErrMessage st json⟩) := by
  refine ⟨?_, ?_, ?_, ?_, ?_, ?_, ?_⟩
  · intro cookie outcome e h
    rcases cookie with _ | s
    · simp [sendChat] at h
      simp [← h, specErrorTypes]
    · rcases outcome with ⟨st, json⟩ | err
      · rw [sendChat_some_response] at h
        by_cases hok : resOk st = true
        · rw [if_pos hok] at h
          rcases json with jerr | body
          · simp only at h
            simp only [ChatResult.fail.injEq] at h
            have := catchBranch_type jerr
            rcases this with ht | ht <;> simp [← h, ht, specErrorTypes]
          · simp at h
        · rw [if_neg hok] at h
          simp only [ChatResult.fail.injEq] at h
          have := httpErrorBranch_type st json
          simp only [← h]
          simp only [specErrorTypes, List.mem_append, List.mem_cons,
            List.mem_singleton] at this ⊢
          tauto
      · rw [sendChat_some_threw] at h
        simp only [ChatResult.fail.injEq] at h
        have := catchBranch_type err
        rcases this with ht | ht <;> simp [← h, ht, specErrorTypes]
  · intro s json
    rw [sendChat_some_response, if_neg (by decide)]
    simp [httpErrorBranch]
  · intro s json
    refine ⟨jsOrStr (computeErrMessage 403 json)
      "Access denied. Insufficient permissions.", ?_⟩
    rw [sendChat_some_response, if_neg (by decide)]
    simp [httpErrorBranch]
  · intro s json
    refine ⟨jsOrStr (computeErrMessage 422 json) "Invalid request data.", ?_⟩
    rw [sendChat_some_response, if_neg (by decide)]
    simp [httpErrorBranch]
  · intro s json
    refine ⟨jsOrStr (computeErrMessage 500 json) "Server error occurred.", ?_⟩
    rw [sendChat_some_response, if_neg (by decide)]
    simp [httpErrorBranch]
  · intro s err hname hfetch
    rw [sendChat_some_threw]
    simp [catchBranch, hname, hfetch]
  · intro s st json hok h1 h3 h4 h5
    rw [sendChat_some_response, if_neg (by simp [hok])]
    simp [httpErrorBranch, h1, h3, h4, h5]

/-- C2 witness: concrete instantiations of the amended mapping — a 403
response yields `FORBIDDEN`, a network-level `TypeError` yields
`NETWORK_ERROR`/503, and a 418 response yields `HTTP_ERROR`. -/
theorem C2_witness :
    (∃ m, (sendChat (some "token") samplePayload "UTC"
        (.response 403 (.ok emptyBody))).fst =
      ChatResult.fail ⟨"FORBIDDEN", 403, some m⟩) ∧
    (sendChat (some "token") samplePayload "UTC"
        (.threw ⟨"TypeError", "fetch failed"⟩)).fst =
      ChatResult.fail ⟨"NETWORK_ERROR", 503, some "Unable to connect to server"⟩ ∧
    (sendChat (some "token") samplePayload "UTC"
        (.response 418 (.ok emptyBody))).fst =
      ChatResult.fail ⟨"HTTP_ERROR", 418, computeErrMessage 418 (.ok emptyBody)⟩ :=
  ⟨(C2_theorem samplePayload "UTC").2.2.1 "token" (.ok emptyBody),
   (C2_theorem samplePayload "UTC").2.2.2.2.2.1 "token"
     ⟨"TypeError", "fetch failed"⟩ rfl (by decide),
   (C2_theorem samplePayload "UTC").2.2.2.2.2.2 "token" 418 (.ok emptyBody)
     (by decide) (by decide) (by decide) (by decide) (by decide)⟩

end MedApp

namespace MedApp

/-- C3: `sendChat` is total over its error paths.  With a session cookie
present, every non-2xx response (with parsable or unparsable error body)
and every exception thrown inside the `try` yields a
`{success: false, error: {type, status, message}}` result — the embedding
is a total function into `ChatResult`, so no exception reaches the
caller — and a fetch-level `TypeError` (the `catch` recognizes it by
`name === "TypeError"` and a message containing `"fetch"`) yields a
`NETWORK_ERROR` result with status 503. -/
theorem C3_theorem (s : String) (p : ChatPayload) (tz : String) :
    (∀ (st : Nat) (json : Except JsError BodyJson), resOk st = false →
        ∃ e : ChatError,
          (sendChat (some s) p tz (.response st json)).fst = .fail e) ∧
    (∀ err : JsError,
        ∃ e : ChatError, (sendChat (some s) p tz (.threw err)).fst = .fail e) ∧
    (∀ (st : Nat) (jerr : JsError), resOk st = true →
        ∃ e : ChatError,
          (sendChat (some s) p tz (.response st (.error jerr))).fst = .fail e) ∧
    (∀ err : JsError, err.name = "TypeError" → mentionsFetch err.message = true →
        sendChat (some s) p tz (.threw err) =
          (.fail ⟨"NETWORK_ERROR", 503, some "Unable to connect to server"⟩,
           ⟨true, false, false⟩)) := by
  refine ⟨?_, ?_, ?_, ?_⟩
  · intro st json h
    rw [sendChat_some_response, if_neg (by simp [h])]
    exact ⟨_, rfl⟩
  · intro err
    rw [sendChat_some_threw]
    exact ⟨_, rfl⟩
  · intro st jerr h
    rw [sendChat_some_response, if_pos h]
    exact ⟨_, rfl⟩
  · intro err hname hfetch
    rw [sendChat_some_threw]
    simp [catchBranch, hname, hfetch]

/-- C3 witness: a 500 response, a 404 response with an unparsable body,
a 2xx response with an unparsable body, and a thrown network `TypeError`
all produce structured failure results. -/
theorem C3_witness :
    (∃ e, (sendChat (some "token") samplePayload "UTC"
        (.response 500 (.ok emptyBody))).fst = ChatResult.fail e) ∧
    (∃ e, (sendChat (some "token") samplePayload "UTC"
        (.response 404 (.error ⟨"SyntaxError", "Unexpected token"⟩))).fst =
        ChatResult.fail e) ∧
    (∃ e, (sendChat (some "token") samplePayload "UTC"
        (.response 200 (.error ⟨"SyntaxError", "Unexpected token"⟩))).fst =
        ChatResult.fail e) ∧
    sendChat (some "token") samplePayload "UTC"
        (.threw ⟨"TypeError", "fetch failed"⟩) =
      (.fail ⟨"NETWORK_ERROR", 503, some "Unable to connect to server"⟩,
       ⟨true, false, false⟩) :=
  ⟨(C3_theorem ("token") samplePayload "UTC").1 500 (.ok emptyBody) (by decide),
   (C3_theorem ("token") samplePayload "UTC").1 404
     (.error ⟨"SyntaxError", "Unexpected token"⟩) (by decide),
   (C3_theorem ("token") samplePayload "UTC").2.2.1 200
     ⟨"SyntaxError", "Unexpected token"⟩ (by decide),
   (C3_theorem ("token") samplePayload "UTC").2.2.2
     ⟨"TypeError", "fetch failed"⟩ rfl (by decide)⟩

/-- C4: a 401 HTTP response is the only `sendChat` outcome that deletes
the `session`/`refresh_token` cookies, and the only error outcome the
chat handler reacts to by scheduling a redirect (it does so exactly on
`AUTHENTICATION_FAILED`); every other response status and every thrown
fetch error leaves the cookie store unchanged and schedules no
redirect. -/
theorem C4_theorem (s : String) (p : ChatPayload) (tz : String) :
    (∀ json : Except JsError BodyJson,
        sendChat (some s) p tz (.response 401 json) =
          (.fail ⟨"AUTHENTICATION_FAILED", 401,
              some "Session expired. Please log in again."⟩,
           ⟨true, true, true⟩) ∧
        redirectScheduled
          (sendChat (some s) p tz (.response 401 json)).fst = true) ∧
    (∀ (st : Nat) (json : Except JsError BodyJson), st ≠ 401 →
        (sendChat (some s) p tz (.response st json)).snd =
          ⟨true, false, false⟩ ∧
        redirectScheduled
          (sendChat (some s) p tz (.response st json)).fst = false) ∧
    (∀ err : JsError,
        (sendChat (some s) p tz (.threw err)).snd = ⟨true, false, false⟩ ∧
        redirectScheduled (sendChat (some s) p tz (.threw err)).fst = false) := by
  refine ⟨?_, ?_, ?_⟩
  · intro json
    have h : sendChat (some s) p tz (.response 401 json) =
        (.fail ⟨"AUTHENTICATION_FAILED", 401,
            some "Session expired. Please log in again."⟩,
         ⟨true, true, true⟩) := by
      rw [sendChat_some_response, if_neg (by decide)]
      simp [httpErrorBranch]
    exact ⟨h, by rw [h]; rfl⟩
  · intro st json hne
    by_cases hok : resOk st = true
    · rw [sendChat_some_response, if_pos hok]
      rcases json with jerr | body
      · refine ⟨rfl, ?_⟩
        rcases catchBranch_type jerr with ht | ht <;>
          simp [redirectScheduled, ht]
      · exact ⟨rfl, rfl⟩
    · rw [sendChat_some_response, if_neg hok]
      constructor
      · simp [httpErrorBranch_deleted, hne]
      · simp [redirectScheduled, httpErrorBranch_auth_iff, hne]
  · intro err
    rw [sendChat_some_threw]
    refine ⟨rfl, ?_⟩
    rcases catchBranch_type err with ht | ht <;>
      simp [redirectScheduled, ht]

/-- C4 witness: a concrete 401 deletes both cookies and schedules the
redirect; a concrete 403 and a concrete network failure delete nothing
and schedule nothing. -/
theorem C4_witness :
    sendChat (some "token") samplePayload "UTC"
        (.response 401 (.ok emptyBody)) =
      (.fail ⟨"AUTHENTICATION_FAILED", 401,
          some "Session expired. Please log in again."⟩,
       ⟨true, true, true⟩) ∧
    (sendChat (some "token") samplePayload "UTC"
        (.response 403 (.ok emptyBody))).snd = ⟨true, false, false⟩ ∧
    (sendChat (some "token") samplePayload "UTC"
        (.threw ⟨"TypeError", "fetch failed"⟩)).snd = ⟨true, false, false⟩ :=
  ⟨((C4_theorem ("token") samplePayload "UTC").1 (.ok emptyBody)).1,
   ((C4_theorem ("token") samplePayload "UTC").2.1 403 (.ok emptyBody)
     (by decide)).1,
   ((C4_theorem ("token") samplePayload "UTC").2.2
     ⟨"TypeError", "fetch failed"⟩).1⟩

end MedApp

namespace MedApp

/-- C5: for every assistant message whose content parses to a
`confirm_booking` payload (with its truthy `doctor` and `starts_at`
guards), the rendered widget's two actions issue `sendChat` payloads
whose `interrupt_id` is exactly the message's stored `interrupt_id` —
passed through unmodified and uninspected — with `resume_value` `"yes"`
for confirm and `"no"` for cancel; and `sendChat`'s request body keeps
that `interrupt_id` unchanged. -/
theorem C5_theorem (msg : ChatMessage) (p : Payload) (tz : String)
    (htype : p.type = some "confirm_booking")
    (hdoc : truthyOptStr p.doctor = true)
    (hstart : truthyOptStr p.starts_at = true) :
    dispatch2 false msg (some p) =
      .confirmBookingCard (p.doctor.getD "") (p.starts_at.getD "")
        (confirmBookingRequest msg true) (confirmBookingRequest msg false) ∧
    (confirmBookingRequest msg true).interrupt_id = msg.interrupt_id ∧
    (confirmBookingRequest msg true).resume_value = some "yes" ∧
    (confirmBookingRequest msg false).interrupt_id = msg.interrupt_id ∧
    (confirmBookingRequest msg false).resume_value = some "no" ∧
    (chatRequestBody (confirmBookingRequest msg true) tz).interrupt_id =
      msg.interrupt_id ∧
    (chatRequestBody (confirmBookingRequest msg false) tz).interrupt_id =
      msg.interrupt_id := by
  refine ⟨?_, rfl, rfl, rfl, rfl, rfl, rfl⟩
  simp [dispatch2, htype, hdoc, hstart]

/-- A concrete `confirm_booking` payload. -/
def confirmPayloadEx : Payload :=
  { type := some "confirm_booking", status := none, message := none,
    retryMessage := none, doctor := some "Dr. Smith", doctor_name := none,
    starts_at := some "tomorrow at 10:00",
    proposed_starts_at_display := none, specialty := none, options := none,
    reply_template := none, doctors := none, agent := none,
    appointment_id := none, id := none, start_dt := none, location := none }

/-- A concrete assistant message carrying an opaque interrupt id. -/
def msgEx : ChatMessage :=
  ⟨"assistant", "(payload json)", some "scheduler", some "int-abc-123"⟩

/-- C5 witness: with the interrupt id `"int-abc-123"` stored on the
message, both buttons echo exactly that id. -/
theorem C5_witness :
    (confirmBookingRequest msgEx true).interrupt_id = some "int-abc-123" ∧
    (confirmBookingRequest msgEx true).resume_value = some "yes" ∧
    (confirmBookingRequest msgEx false).resume_value = some "no" ∧
    dispatch2 false msgEx (some confirmPayloadEx) =
      .confirmBookingCard "Dr. Smith" "tomorrow at 10:00"
        (confirmBookingRequest msgEx true)
        (confirmBookingRequest msgEx false) := by
  have h := C5_theorem msgEx confirmPayloadEx "UTC" rfl (by decide) (by decide)
  exact ⟨h.2.1, h.2.2.1, h.2.2.2.2.1, h.1⟩

/-- C6: a message whose content parses to
`{"type": "slots", "options": opts}` with `opts` an array renders exactly
one slot widget (the dispatch yields the single `slotsCard` render path)
whose buttons are exactly the elements of `opts`; clicking the button
for `opt` sets the chat input to `reply_template ++ opt` — a message
containing the selected slot text — and submits the chat form. -/
theorem C6_theorem (p : Payload) (opts : List String) (rt : String)
    (htype : p.type = some "slots")
    (hopts : p.options = some opts)
    (hrt : p.reply_template = some rt) :
    dispatch false (some p) = .slotsCard p.agent p.doctor p.specialty opts ∧
    ∀ opt, slotsClick p opt = .submitInput (rt ++ opt) := by
  constructor
  · simp [dispatch, htype, hopts]
  · intro opt
    simp [slotsClick, jsConcatUndef, hrt]

/-- A concrete `slots` payload with two options. -/
def slotsPayloadEx : Payload :=
  { type := some "slots", status := none, message := none,
    retryMessage := none, doctor := some "Dr. Smith", doctor_name := none,
    starts_at := none, proposed_starts_at_display := none,
    specialty := some "Cardiology", options := some ["09:00", "10:00"],
    reply_template := some "Book me the slot at ", doctors := none,
    agent := some "scheduler", appointment_id := none, id := none,
    start_dt := none, location := none }

/-- C6 witness: `["09:00", "10:00"]` yields one slot widget with two
buttons, and clicking `"09:00"` submits a message containing that slot
text. -/
theorem C6_witness :
    dispatch false (some slotsPayloadEx) =
      .slotsCard (some "scheduler") (some "Dr. Smith") (some "Cardiology")
        ["09:00", "10:00"] ∧
    (["09:00", "10:00"] : List String).length = 2 ∧
    slotsClick slotsPayloadEx "09:00" =
      .submitInput "Book me the slot at 09:00" := by
  have h := C6_theorem slotsPayloadEx ["09:00", "10:00"]
    "Book me the slot at " rfl rfl rfl
  exact ⟨h.1, rfl, (h.2 "09:00").trans (by rfl)⟩

/-- C7: the login action redirects to `"/c"` when the schema passes and
the backend answers 2xx; returns an errors object (rather than throwing —
the embedding is total into `LoginOutcome`) for every non-2xx status,
401 included; and on schema-invalid input returns the field errors with
no HTTP call made (the paired boolean records whether `fetch` ran). -/
theorem C7_theorem :
    (∀ (errs : List (String × List String)) (r : LoginResponse),
        login (.failure errs) r = (.fieldErrors errs, false)) ∧
    (∀ (em pw : String) (d : Option String),
        login (.success em pw) ⟨200, d⟩ = (.redirected "/c", true)) ∧
    (∀ (em pw : String) (st : Nat) (d : Option String), resOk st = false →
        ∃ msg, login (.success em pw) ⟨st, d⟩ = (.apiError msg st, true)) := by
  refine ⟨fun errs r => rfl, fun em pw d => rfl, ?_⟩
  intro em pw st d hok
  by_cases h5 : st = 500
  · subst h5
    exact ⟨"Server error occurred. Please try again later.",
      by simp [login, resOk]⟩
  · exact ⟨jsOrStr d "Invalid credentials", by simp [login, hok, h5]⟩

/-- C7 witness: a schema failure short-circuits without fetching, a 200
response redirects to `"/c"`, and a 401 response returns a displayable
error object. -/
theorem C7_witness :
    login (.failure [("email", ["Invalid email address"])]) ⟨200, none⟩ =
      (.fieldErrors [("email", ["Invalid email address"])], false) ∧
    login (.success "a@b.co" "password1") ⟨200, none⟩ =
      (.redirected "/c", true) ∧
    (∃ msg, login (.success "a@b.co" "password1") ⟨401, some "Invalid credentials"⟩ =
      (.apiError msg 401, true)) :=
  ⟨C7_theorem.1 [("email", ["Invalid email address"])] ⟨200, none⟩,
   C7_theorem.2.1 "a@b.co" "password1" none,
   C7_theorem.2.2 "a@b.co" "password1" 401 (some "Invalid credentials")
     (by decide)⟩

/-- C9: for every validated registration input (with a date in the
four-digit-year range the `toISOString` model covers), the built API
payload nests `sex`, `first_name`, `last_name`, `dob` (as `YYYY-MM-DD`),
`phone`, `address` under `patient_profile`, keeps `email`, `password`
and the optional `role` at top level, and its top-level keys never
include `repeat_password`. -/
theorem C9_theorem (d : RegisterData) (_hy : d.dob.year ≤ 9999) :
    buildRegisterPayload d =
      { email := d.email, password := d.password, role := d.role,
        patient_profile :=
          ⟨d.sex, d.first_name, d.last_name, isoDateSlice10 d.dob,
           d.phone, d.address⟩ } ∧
    (buildRegisterPayload d).patient_profile.dob =
      padNum 4 d.dob.year ++ "-" ++ padNum 2 d.dob.month ++ "-" ++
        padNum 2 d.dob.day ∧
    "repeat_password" ∉ registerPayloadKeys (buildRegisterPayload d) ∧
    "email" ∈ registerPayloadKeys (buildRegisterPayload d) ∧
    "password" ∈ registerPayloadKeys (buildRegisterPayload d) ∧
    "patient_profile" ∈ registerPayloadKeys (buildRegisterPayload d) := by
  refine ⟨rfl, rfl, ?_, ?_, ?_, ?_⟩ <;>
    rcases h : d.role with _ | r <;>
      simp [registerPayloadKeys, buildRegisterPayload, h]

/-- A concrete validated registration input. -/
def regDataEx : RegisterData :=
  ⟨"a@b.co", "password1", "Ada", "Lovelace", "F", "123-4567", "1 Main St",
   ⟨1990, 5, 7⟩, none, "password1"⟩

/-- C9 witness: the concrete input's `dob` serializes to `"1990-05-07"`
and `repeat_password` is not among the payload's top-level keys. -/
theorem C9_witness :
    (buildRegisterPayload regDataEx).patient_profile.dob = "1990-05-07" ∧
    "repeat_password" ∉ registerPayloadKeys (buildRegisterPayload regDataEx) := by
  have h := C9_theorem regDataEx (by decide)
  refine ⟨?_, h.2.2.1⟩
  rw [h.2.1]
  rfl

end MedApp
